import Mathlib

/-!
Verification of the notion financial service core: a shallow embedding of the
decision scoring engine (similarity scoring, financial health scoring,
recommendation synthesis), the aggregation helpers (category breakdown, budget
analysis, budget health classification), the spending request decision
transition, and the resilient record store client retry and cache machinery.
JavaScript numbers are modelled as exact rationals, dates as integer day
counts, and the external record store as an explicit list of records.
-/

namespace NotionService

/-- Spending request status enum, from the SpendingStatusSchema. -/
inductive SpendingStatus
  | Pending
  | Approved
  | Denied
deriving DecidableEq, Repr

/-- Urgency level enum, from the UrgencyLevelSchema. -/
inductive UrgencyLevel
  | Low
  | Medium
  | High
  | Critical
deriving DecidableEq, Repr

/-- Spending category enum, from the SpendingCategorySchema. -/
inductive SpendingCategory
  | Food
  | Entertainment
  | Shopping
  | Bills
  | Emergency
  | Other
deriving DecidableEq, Repr

/-- A validated spending request, from the SpendingRequestSchema.
Amounts are rationals and dates are integer day counts. -/
structure SpendingRequest where
  id : String
  title : String
  amount : ℚ
  description : Option String
  category : SpendingCategory
  status : SpendingStatus
  requestDate : ℤ
  decisionDate : Option ℤ
  reasoning : Option String
  urgency : UrgencyLevel
  tags : List String
deriving DecidableEq, Repr

/-- Budget health classification enum used by BudgetStatus. -/
inductive BudgetHealth
  | excellent
  | good
  | warning
  | critical
deriving DecidableEq, Repr

/-- Derived monthly budget status, from the BudgetStatus type. -/
structure BudgetStatus where
  monthlyBudget : ℚ
  currentSpending : ℚ
  remainingBudget : ℚ
  percentageUsed : ℚ
  daysIntoMonth : ℤ
  daysRemainingInMonth : ℤ
  dailyAverageSpent : ℚ
  projectedMonthlySpending : ℚ
  isOnTrack : Bool
  budgetHealth : BudgetHealth
  recommendations : List String
deriving DecidableEq, Repr

/-- Goal priority enum, from the GoalPrioritySchema. -/
inductive GoalPriority
  | low
  | medium
  | high
  | critical
deriving DecidableEq, Repr

/-- Goal category enum, from the GoalCategorySchema. -/
inductive GoalCategory
  | emergencyFund
  | retirement
  | vacation
  | homePurchase
  | debtPayoff
  | education
  | investment
  | majorPurchase
  | other
deriving DecidableEq, Repr

/-- Financial goal status enum, from the FinancialGoalStatusSchema. -/
inductive GoalStatus
  | active
  | completed
  | paused
deriving DecidableEq, Repr

/-- A validated financial goal, from the FinancialGoalSchema. -/
structure FinancialGoal where
  id : String
  title : String
  targetAmount : ℚ
  currentAmount : ℚ
  deadline : Option ℤ
  priority : GoalPriority
  category : GoalCategory
  status : GoalStatus
deriving DecidableEq, Repr

/-- Debt priority enum, from the DebtPrioritySchema. -/
inductive DebtPriority
  | low
  | medium
  | high
  | urgent
deriving DecidableEq, Repr

/-- Debt type enum, from the DebtTypeSchema. -/
inductive DebtType
  | creditCard
  | studentLoan
  | mortgage
  | personalLoan
  | autoLoan
  | medicalDebt
  | other
deriving DecidableEq, Repr

/-- Debt status enum, from the DebtStatusSchema. -/
inductive DebtStatus
  | active
  | paidOff
  | inCollections
  | deferred
deriving DecidableEq, Repr

/-- A validated debt record, from the DebtInfoSchema. -/
structure DebtInfo where
  id : String
  creditor : String
  totalAmount : ℚ
  remainingAmount : ℚ
  minimumPayment : ℚ
  interestRate : ℚ
  dueDate : ℤ
  priority : DebtPriority
  debtType : DebtType
  status : DebtStatus
deriving DecidableEq, Repr

/-- Budget health classification from getMonthlyBudgetStatus in
FinancialDataService: the chain of percentageUsed threshold checks that picks
excellent, good, warning or critical. -/
def budgetHealth (percentageUsed : ℚ) : BudgetHealth :=
  if percentageUsed < 50 then .excellent
  else if percentageUsed < 75 then .good
  else if percentageUsed < 90 then .warning
  else .critical

/-- The urgencyMap lookup in calculateSimilarityScore: Low 1, Medium 2,
High 3, Critical 4.  The fallback default 2 in the source is unreachable
because the urgency enum is closed. -/
def urgencyMapVal : UrgencyLevel → ℚ
  | .Low => 1
  | .Medium => 2
  | .High => 3
  | .Critical => 4

/-- calculateSimilarityScore from DecisionContextService: 0 on category
mismatch, otherwise 0.4 for the category match plus weighted amount,
urgency and recency closeness, capped at 1. -/
def calculateSimilarityScore (request1 request2 : SpendingRequest) : ℚ :=
  if request1.category = request2.category then
    let score : ℚ := 0.4
    let amountDiff := |request1.amount - request2.amount|
    let averageAmount := (request1.amount + request2.amount) / 2
    let amountSimilarity := max 0 (1 - amountDiff / averageAmount)
    let score := score + amountSimilarity * 0.3
    let urgencyDiff := |urgencyMapVal request1.urgency - urgencyMapVal request2.urgency|
    let urgencySimilarity := max 0 (1 - urgencyDiff / 3)
    let score := score + urgencySimilarity * 0.2
    let daysDiff := |(request1.requestDate : ℚ) - (request2.requestDate : ℚ)|
    let timeSimilarity := max 0 (1 - daysDiff / 90)
    let score := score + timeSimilarity * 0.1
    min score 1
  else 0

/-- One cache entry of the NotionClient cache: payload (abstracted as a
string), insertion timestamp and time to live. -/
structure CacheEntry where
  data : String
  timestamp : ℕ
  ttl : ℕ
deriving DecidableEq, Repr

/-- Check whether the first list starts with the second list. -/
def startsWithList : List Char → List Char → Bool
  | [], _ => true
  | _ :: _, [] => false
  | a :: as, b :: bs => a = b && startsWithList as bs

/-- Check whether sub occurs somewhere in the list. -/
def containsList (sub : List Char) : List Char → Bool
  | [] => sub.isEmpty
  | c :: rest => startsWithList sub (c :: rest) || containsList sub rest

/-- The key.includes(pageId) substring test used by the cache invalidation
loop in updatePage. -/
def strContains (key sub : String) : Bool :=
  containsList sub.data key.data

/-- The cache invalidation performed by a successful updatePage in
NotionClient: iterate over the cache keys and delete every entry whose key
contains the page id.  The cache map is modelled as an association list, and
the scan and delete loop as a filter keeping the other entries untouched. -/
def updatePageInvalidate (cache : List (String × CacheEntry)) (pageId : String) :
    List (String × CacheEntry) :=
  cache.filter (fun kv => !(strContains kv.1 pageId))

/-- C8: budgetHealth is a pure total function of percentageUsed with
boundaries exactly at 50, 75 and 90: excellent iff below 50, good iff in
[50, 75), warning iff in [75, 90), critical iff at least 90. -/
theorem budgetHealth_boundaries (p : ℚ) :
    (budgetHealth p = .excellent ↔ p < 50)
    ∧ (budgetHealth p = .good ↔ 50 ≤ p ∧ p < 75)
    ∧ (budgetHealth p = .warning ↔ 75 ≤ p ∧ p < 90)
    ∧ (budgetHealth p = .critical ↔ 90 ≤ p) := by
  by_cases h1 : p < 50 <;> by_cases h2 : p < 75 <;> by_cases h3 : p < 90 <;>
    simp [budgetHealth, h1, h2, h3] <;> linarith

/-- C9: similarity is symmetric, and zero whenever the two categories
differ. -/
theorem calculateSimilarityScore_symm_and_zero :
    (∀ a b : SpendingRequest, calculateSimilarityScore a b = calculateSimilarityScore b a)
    ∧ (∀ a b : SpendingRequest, a.category ≠ b.category →
        calculateSimilarityScore a b = 0) := by
  constructor
  · intro a b
    unfold calculateSimilarityScore
    by_cases h : a.category = b.category
    · rw [if_pos h, if_pos h.symm, abs_sub_comm a.amount b.amount,
        abs_sub_comm (urgencyMapVal a.urgency) (urgencyMapVal b.urgency),
        abs_sub_comm (a.requestDate : ℚ) (b.requestDate : ℚ),
        add_comm a.amount b.amount]
    · rw [if_neg h, if_neg (fun hh => h hh.symm)]
  · intro a b h
    unfold calculateSimilarityScore
    rw [if_neg h]

/-- C6: after the updatePage cache invalidation, an entry is in the cache
exactly when it was there before and its key does not contain the page id;
surviving entries keep their key, data and timestamp, and the survivors form
a sublist of the old cache (order and multiplicity preserved). -/
theorem updatePageInvalidate_spec :
    (∀ (cache : List (String × CacheEntry)) (pageId : String)
        (kv : String × CacheEntry),
      kv ∈ updatePageInvalidate cache pageId ↔
        kv ∈ cache ∧ strContains kv.1 pageId = false)
    ∧ (∀ (cache : List (String × CacheEntry)) (pageId : String),
        (updatePageInvalidate cache pageId).Sublist cache) := by
  constructor
  · intro cache pageId kv
    simp [updatePageInvalidate, List.mem_filter]
  · intro cache pageId
    exact List.filter_sublist cache

/-- Classified error kinds produced by handleNotionError in NotionClient. -/
inductive NotionErrKind
  | auth
  | permission
  | notFound
  | rateLimited (retryAfter : Option ℕ)
  | timeout
  | connection
  | internalServerError
  | serviceUnavailable
  | unknown
deriving DecidableEq, Repr

/-- The non retryable check in withRetry: auth, permission and not found
errors stop the retry loop immediately; every other kind is retried. -/
def isNonRetryable : NotionErrKind → Bool
  | .auth => true
  | .permission => true
  | .notFound => true
  | _ => false

/-- Outcome of a single invocation of the wrapped operation, already pushed
through handleNotionError classification. -/
inductive RetryOutcome (T : Type)
  | ok (v : T)
  | err (e : NotionErrKind)
deriving DecidableEq, Repr

/-- The retry loop of withRetry in NotionClient, for the path without a cache
key.  The script gives the outcome of each invocation, indexed by attempt
number.  remaining is maxRetries minus the current attempt index, so the
source condition attempt == maxRetries is remaining == 0.  The result carries
the final outcome, the recorded retryCount, and the number of invocations
actually made. -/
def retryGo {T : Type} (script : ℕ → RetryOutcome T) (attempt retryCount remaining : ℕ) :
    Except NotionErrKind T × ℕ × ℕ :=
  match script attempt with
  | .ok v => (.ok v, retryCount, 1)
  | .err e =>
    match remaining with
    | 0 => (.error e, retryCount + 1, 1)
    | r + 1 =>
      if isNonRetryable e then (.error e, retryCount + 1, 1)
      else
        let rest := retryGo script (attempt + 1) (retryCount + 1) r
        (rest.1, rest.2.1, rest.2.2 + 1)

/-- withRetry from NotionClient (no cache key): run the retry loop starting
at attempt 0 with retryCount 0 and maxRetries retries left. -/
def withRetry {T : Type} (script : ℕ → RetryOutcome T) (maxRetries : ℕ) :
    Except NotionErrKind T × ℕ × ℕ :=
  retryGo script 0 0 maxRetries

/-- If the next k invocations fail retryably and the one after succeeds, the
loop succeeds with k more retries recorded and k + 1 invocations, provided at
least k retries remain. -/
theorem retryGo_succeeds {T : Type} (script : ℕ → RetryOutcome T) (v : T) :
    ∀ (k attempt retryCount remaining : ℕ),
      (∀ i < k, ∃ e, script (attempt + i) = .err e ∧ isNonRetryable e = false) →
      script (attempt + k) = .ok v →
      k ≤ remaining →
      retryGo script attempt retryCount remaining =
        (.ok v, retryCount + k, k + 1) := by
  intro k
  induction k with
  | zero =>
    intro attempt retryCount remaining _ hsucc _
    rw [Nat.add_zero] at hsucc
    unfold retryGo
    rw [hsucc]
    rfl
  | succ k ih =>
    intro attempt retryCount remaining hfail hsucc hle
    obtain ⟨e, he, hre⟩ := hfail 0 (Nat.succ_pos k)
    rw [Nat.add_zero] at he
    obtain ⟨r, rfl⟩ : ∃ r, remaining = r + 1 :=
      ⟨remaining - 1, by omega⟩
    have hrest : retryGo script (attempt + 1) (retryCount + 1) r =
        (.ok v, retryCount + 1 + k, k + 1) := by
      apply ih
      · intro i hi
        obtain ⟨e', he', hre'⟩ := hfail (i + 1) (by omega)
        exact ⟨e', by rw [show attempt + 1 + i = attempt + (i + 1) by omega]; exact he', hre'⟩
      · rw [show attempt + 1 + k = attempt + (k + 1) by omega]
        exact hsucc
      · omega
    rw [show retryCount + 1 + k = retryCount + (k + 1) by omega] at hrest
    unfold retryGo
    rw [he]
    simp only [hre]
    rw [hrest]
    rfl

/-- If every invocation up to the remaining budget fails retryably, the loop
exhausts its retries: it raises the classified error of the last attempt,
records remaining + 1 retries, and makes exactly remaining + 1 invocations. -/
theorem retryGo_exhausts {T : Type} (script : ℕ → RetryOutcome T) (es : ℕ → NotionErrKind) :
    ∀ (remaining attempt retryCount : ℕ),
      (∀ i ≤ remaining, script (attempt + i) = .err (es (attempt + i)) ∧
        isNonRetryable (es (attempt + i)) = false) →
      retryGo script attempt retryCount remaining =
        (.error (es (attempt + remaining)), retryCount + remaining + 1, remaining + 1) := by
  intro remaining
  induction remaining with
  | zero =>
    intro attempt retryCount hfail
    obtain ⟨he, _⟩ := hfail 0 (Nat.le_refl 0)
    rw [Nat.add_zero] at he
    unfold retryGo
    rw [he]
    rfl
  | succ r ih =>
    intro attempt retryCount hfail
    obtain ⟨he, hre⟩ := hfail 0 (Nat.zero_le _)
    rw [Nat.add_zero] at he hre
    have hrest := ih (attempt + 1) (retryCount + 1) (fun i hi => by
      have h2 := hfail (i + 1) (by omega)
      rw [show attempt + (i + 1) = attempt + 1 + i by omega] at h2
      exact h2)
    rw [show attempt + 1 + r = attempt + (r + 1) by omega,
      show retryCount + 1 + r + 1 = retryCount + (r + 1) + 1 by omega] at hrest
    unfold retryGo
    rw [he]
    simp only [hre]
    rw [hrest]
    rfl

/-- C5: for a script failing with retryable errors on its first N invocations
and succeeding on invocation N + 1, withRetry with maxRetries = N returns the
success on the final attempt with retryCount N after N + 1 invocations; with
maxRetries = N - 1 it raises the classified error of the last failure after
exactly N invocations, never making an N + 1 st one. -/
theorem withRetry_spec {T : Type} (script : ℕ → RetryOutcome T) (es : ℕ → NotionErrKind)
    (v : T) (N : ℕ)
    (hfail : ∀ i < N, script i = .err (es i) ∧ isNonRetryable (es i) = false)
    (hsucc : script N = .ok v) :
    withRetry script N = (.ok v, N, N + 1)
    ∧ (∀ M, M + 1 = N → withRetry script M = (.error (es M), N, N)) := by
  constructor
  · have h := retryGo_succeeds script v N 0 0 N
      (fun i hi => ⟨es i, by rw [Nat.zero_add]; exact (hfail i hi).1,
        (hfail i hi).2⟩)
      (by rw [Nat.zero_add]; exact hsucc) (Nat.le_refl N)
    rw [Nat.zero_add] at h
    unfold withRetry
    rw [h]
  · intro M hM
    have h := retryGo_exhausts script es M 0 0
      (fun i hi => by rw [Nat.zero_add]; exact hfail i (by omega))
    rw [Nat.zero_add] at h
    unfold withRetry
    rw [h, hM]

/-- Script used to witness the retry state machine claim: two timeouts, then
success with value 7. -/
def witnessScript : ℕ → RetryOutcome ℕ :=
  fun i => if i < 2 then .err .timeout else .ok 7

/-- Witness for C5 at N = 2: with maxRetries 2 the operation succeeds on the
third invocation with retryCount 2; with maxRetries 1 it fails with the
timeout error after exactly 2 invocations. -/
theorem withRetry_spec_witness :
    withRetry witnessScript 2 = (.ok 7, 2, 3)
    ∧ withRetry witnessScript 1 = (.error .timeout, 2, 2) :=
  have h := withRetry_spec witnessScript (fun _ => .timeout) 7 2
    (by intro i hi; refine ⟨?_, rfl⟩; unfold witnessScript; rw [if_pos hi])
    (by unfold witnessScript; rw [if_neg (by omega)])
  ⟨h.1, h.2 1 rfl⟩

/-- Sample request in category Food, used by witnesses. -/
def sampleReqA : SpendingRequest :=
  { id := "r1", title := "Coffee", amount := 12, description := none,
    category := .Food, status := .Approved, requestDate := 10,
    decisionDate := none, reasoning := none, urgency := .Low, tags := [] }

/-- Sample request in category Entertainment, used by witnesses. -/
def sampleReqB : SpendingRequest :=
  { id := "r2", title := "Game", amount := 60, description := none,
    category := .Entertainment, status := .Denied, requestDate := 5,
    decisionDate := none, reasoning := none, urgency := .High, tags := [] }

/-- Sample request in category Food with other fields varied, used by
witnesses. -/
def sampleReqC : SpendingRequest :=
  { id := "r3", title := "Groceries", amount := 80, description := none,
    category := .Food, status := .Pending, requestDate := 3,
    decisionDate := none, reasoning := none, urgency := .Medium, tags := [] }

/-- Witness for C9: symmetry at a concrete same-category pair, and zero at a
concrete category-mismatched pair. -/
theorem calculateSimilarityScore_symm_and_zero_witness :
    calculateSimilarityScore sampleReqA sampleReqC
      = calculateSimilarityScore sampleReqC sampleReqA
    ∧ calculateSimilarityScore sampleReqA sampleReqB = 0 :=
  ⟨calculateSimilarityScore_symm_and_zero.1 sampleReqA sampleReqC,
    calculateSimilarityScore_symm_and_zero.2 sampleReqA sampleReqB (by decide)⟩

/-- The category list used by calculateCategoryBreakdown to zero-fill the
result, in source order. -/
def allCategories : List SpendingCategory :=
  [.Food, .Entertainment, .Shopping, .Bills, .Emergency, .Other]

/-- One step of the forEach accumulation in calculateCategoryBreakdown:
requests in status Approved or Pending add their amount to their category
bucket (missing buckets default to 0); other requests are skipped. -/
def breakdownStep (acc : SpendingCategory → ℚ) (request : SpendingRequest) :
    SpendingCategory → ℚ :=
  if request.status = .Approved ∨ request.status = .Pending then
    fun c => if c = request.category then acc request.category + request.amount else acc c
  else acc

/-- FinancialContextHelpers.calculateCategoryBreakdown: accumulate amounts of
approved and pending requests per category, then list every enum category
with its (zero-filled) total. -/
def calculateCategoryBreakdown (spending : List SpendingRequest) :
    List (SpendingCategory × ℚ) :=
  let breakdown := spending.foldl breakdownStep (fun _ => 0)
  allCategories.map (fun category => (category, breakdown category))

/-- Adding an amount at one category changes the sum over all enum categories
by exactly that amount. -/
theorem sum_map_update_category (g : SpendingCategory → ℚ) (cat : SpendingCategory) (a : ℚ) :
    (allCategories.map (fun c => if c = cat then g cat + a else g c)).sum
      = (allCategories.map g).sum + a := by
  cases cat <;> simp [allCategories] <;> ring

/-- Folding the breakdown step over a list adds the filtered amount total to
the sum of the accumulator over all enum categories. -/
theorem foldl_breakdownStep_sum (l : List SpendingRequest) :
    ∀ acc : SpendingCategory → ℚ,
      (allCategories.map (l.foldl breakdownStep acc)).sum
        = (allCategories.map acc).sum
          + ((l.filter (fun r => decide (r.status = .Approved ∨ r.status = .Pending))).map
              (fun r => r.amount)).sum := by
  induction l with
  | nil => intro acc; simp
  | cons r t ih =>
    intro acc
    by_cases h : r.status = .Approved ∨ r.status = .Pending
    · have hstep : breakdownStep acc r =
          fun c => if c = r.category then acc r.category + r.amount else acc c := by
        unfold breakdownStep
        rw [if_pos h]
      rw [List.foldl_cons, ih, hstep, sum_map_update_category]
      simp [h]
      ring
    · have hstep : breakdownStep acc r = acc := by
        unfold breakdownStep
        rw [if_neg h]
      rw [List.foldl_cons, ih, hstep]
      simp [h]

/-- The breakdown fold preserves pointwise nonnegativity of the accumulator
when every request amount is nonnegative. -/
theorem foldl_breakdownStep_nonneg (l : List SpendingRequest) :
    ∀ acc : SpendingCategory → ℚ,
      (∀ c, 0 ≤ acc c) → (∀ r ∈ l, 0 ≤ r.amount) →
      ∀ c, 0 ≤ l.foldl breakdownStep acc c := by
  induction l with
  | nil => intro acc hacc _ c; exact hacc c
  | cons r t ih =>
    intro acc hacc hpos c
    rw [List.foldl_cons]
    apply ih
    · intro c'
      unfold breakdownStep
      by_cases h : r.status = .Approved ∨ r.status = .Pending
      · rw [if_pos h]
        by_cases hc : c' = r.category
        · rw [if_pos hc]
          have := hpos r (List.mem_cons_self r t)
          have := hacc r.category
          linarith
        · rw [if_neg hc]; exact hacc c'
      · rw [if_neg h]; exact hacc c'
    · intro r' hr'
      exact hpos r' (List.mem_cons_of_mem r hr')

/-- C7: for requests with positive amounts, the category breakdown lists
exactly the six enum categories as keys, every value is nonnegative, and the
values sum to the total amount of approved and pending requests (denied
requests contribute nothing). -/
theorem calculateCategoryBreakdown_spec (spending : List SpendingRequest)
    (hpos : ∀ r ∈ spending, 0 < r.amount) :
    (calculateCategoryBreakdown spending).map Prod.fst = allCategories
    ∧ (∀ kv ∈ calculateCategoryBreakdown spending, 0 ≤ kv.2)
    ∧ ((calculateCategoryBreakdown spending).map Prod.snd).sum
        = ((spending.filter (fun r => decide (r.status = .Approved ∨ r.status = .Pending))).map
            (fun r => r.amount)).sum := by
  refine ⟨?_, ?_, ?_⟩
  · rfl
  · intro kv hkv
    simp only [calculateCategoryBreakdown, List.mem_map] at hkv
    obtain ⟨c, _, rfl⟩ := hkv
    exact foldl_breakdownStep_nonneg spending (fun _ => 0) (fun _ => le_refl 0)
      (fun r hr => le_of_lt (hpos r hr)) c
  · have h := foldl_breakdownStep_sum spending (fun _ => 0)
    simp only [calculateCategoryBreakdown, List.map_map]
    have hcomp : (Prod.snd ∘ fun category =>
        (category, spending.foldl breakdownStep (fun _ => 0) category))
        = spending.foldl breakdownStep (fun _ => 0) := rfl
    rw [hcomp, h]
    simp

/-- Witness for C7 at a concrete three-request list containing an approved, a
denied and a pending request. -/
theorem calculateCategoryBreakdown_spec_witness :
    (calculateCategoryBreakdown [sampleReqA, sampleReqB, sampleReqC]).map Prod.fst
        = allCategories
    ∧ (∀ kv ∈ calculateCategoryBreakdown [sampleReqA, sampleReqB, sampleReqC], 0 ≤ kv.2)
    ∧ ((calculateCategoryBreakdown [sampleReqA, sampleReqB, sampleReqC]).map Prod.snd).sum
        = (([sampleReqA, sampleReqB, sampleReqC].filter
            (fun r => decide (r.status = .Approved ∨ r.status = .Pending))).map
            (fun r => r.amount)).sum :=
  calculateCategoryBreakdown_spec [sampleReqA, sampleReqB, sampleReqC] (by decide)

/-- The two decision values accepted by the UpdateDecisionSchema. -/
inductive Decision
  | Approved
  | Denied
deriving DecidableEq, Repr

/-- The spending status written by a decision. -/
def decisionToStatus : Decision → SpendingStatus
  | .Approved => .Approved
  | .Denied => .Denied

/-- One mutation call sent to the external store by updateDecision: the page
id together with the Status, Reasoning and Decision Date properties (the
decision date itself is the current day, abstracted away). -/
structure UpdateCall where
  pageId : String
  status : Decision
  reasoning : String
deriving DecidableEq, Repr

/-- Error codes of SpendingRequestServiceError raised by updateDecision. -/
inductive SRErrorCode
  | VALIDATION_ERROR
  | PARSE_ERROR
  | INVALID_STATUS
  | UPDATE_DECISION_ERROR
deriving DecidableEq, Repr

/-- updateDecision from SpendingRequestService, as a pure step: validate the
input (non-empty request id, reasoning of at least 10 characters), parse the
stored page (storeRecord is the parse result of the fetched page), reject any
record not currently Pending with an INVALID_STATUS conflict error, and
otherwise issue exactly one update call.  The second component is the list of
mutation calls sent to the external store. -/
def updateDecision (storeRecord : Option SpendingRequest) (requestId : String)
    (decision : Decision) (reasoning : String) :
    Except SRErrorCode Unit × List UpdateCall :=
  if requestId.length < 1 ∨ reasoning.length < 10 then
    (.error .VALIDATION_ERROR, [])
  else
    match storeRecord with
    | none => (.error .PARSE_ERROR, [])
    | some currentRequest =>
      if currentRequest.status ≠ .Pending then
        (.error .INVALID_STATUS, [])
      else
        (.ok (), [{ pageId := requestId, status := decision, reasoning := reasoning }])

/-- Apply one update call to a store modelled as an association list from
page id to parsed record: the matched record gets the decided status and the
decision reasoning. -/
def applyCall (store : List (String × SpendingRequest)) (c : UpdateCall) :
    List (String × SpendingRequest) :=
  store.map (fun kv =>
    if kv.1 = c.pageId then
      (kv.1, { kv.2 with status := decisionToStatus c.status, reasoning := some c.reasoning })
    else kv)

/-- Apply a list of update calls to a store in order. -/
def applyUpdateCalls (calls : List UpdateCall) (store : List (String × SpendingRequest)) :
    List (String × SpendingRequest) :=
  calls.foldl applyCall store

/-- C4: for valid inputs, when the stored record parses to a status other
than Pending, updateDecision raises the INVALID_STATUS conflict error and
issues no update call, so applying its calls leaves any store unchanged. -/
theorem updateDecision_conflict (storeRecord : Option SpendingRequest)
    (requestId : String) (decision : Decision) (reasoning : String)
    (currentRequest : SpendingRequest)
    (hid : 1 ≤ requestId.length) (hreason : 10 ≤ reasoning.length)
    (hparse : storeRecord = some currentRequest)
    (hstatus : currentRequest.status ≠ .Pending) :
    updateDecision storeRecord requestId decision reasoning
        = (.error .INVALID_STATUS, [])
    ∧ ∀ store : List (String × SpendingRequest),
        applyUpdateCalls (updateDecision storeRecord requestId decision reasoning).2 store
          = store := by
  have hmain : updateDecision storeRecord requestId decision reasoning
      = (.error .INVALID_STATUS, []) := by
    unfold updateDecision
    rw [if_neg (by omega), hparse]
    simp only [hstatus, ite_true]
    rw [if_pos hstatus]
  exact ⟨hmain, fun store => by rw [hmain]; rfl⟩

/-- Concrete already-approved record used to witness the decision conflict
claim. -/
def approvedRecord : SpendingRequest :=
  { sampleReqA with id := "page1", status := .Approved }

/-- Witness for C4: deciding a request whose stored status is Approved fails
with INVALID_STATUS, no mutation is issued, and a concrete one-record store
is unchanged. -/
theorem updateDecision_conflict_witness :
    updateDecision (some approvedRecord) "page1" .Denied "detailed reasoning"
        = (.error .INVALID_STATUS, [])
    ∧ applyUpdateCalls
        (updateDecision (some approvedRecord) "page1" .Denied "detailed reasoning").2
        [("page1", approvedRecord)]
        = [("page1", approvedRecord)] :=
  have h := updateDecision_conflict (some approvedRecord) "page1" .Denied
    "detailed reasoning" approvedRecord (by decide) (by decide) rfl (by decide)
  ⟨h.1, h.2 [("page1", approvedRecord)]⟩

/-- Error codes of DecisionContextServiceError raised by
buildDecisionContext. -/
inductive DCErrorCode
  | VALIDATION_ERROR
  | REQUEST_NOT_FOUND
  | BUILD_CONTEXT_ERROR
deriving DecidableEq, Repr

/-- getRecentSpending from SpendingRequestService: query the store for
requests whose request date lies between now minus the given number of days
and now (the external store applies the on-or-after and on-or-before date
filters).  Dates are integer day counts and the store is the list of parsed
records. -/
def getRecentSpending (store : List SpendingRequest) (now : ℤ) (days : ℤ) :
    List SpendingRequest :=
  store.filter (fun r => decide (now - days ≤ r.requestDate) && decide (r.requestDate ≤ now))

/-- The request lookup at the start of buildDecisionContext in
DecisionContextService: validate the request id, build the spending context
over a fixed 30 day window, and search that window for the request id; a miss
raises REQUEST_NOT_FOUND. -/
def buildDecisionContextLocate (store : List SpendingRequest) (now : ℤ)
    (requestId : String) : Except DCErrorCode SpendingRequest :=
  if requestId.length < 1 then .error .VALIDATION_ERROR
  else
    match (getRecentSpending store now 30).find? (fun r => r.id == requestId) with
    | some r => .ok r
    | none => .error .REQUEST_NOT_FOUND

/-- C10: a request that exists in the store, is still pending, but whose
request date is more than 30 days before now, is invisible to
buildDecisionContext: the lookup raises REQUEST_NOT_FOUND even though the
record exists. -/
theorem buildDecisionContextLocate_old_request (store : List SpendingRequest)
    (now : ℤ) (req : SpendingRequest)
    (hmem : req ∈ store)
    (hold : req.requestDate < now - 30)
    (hpending : req.status = .Pending)
    (hid : 1 ≤ req.id.length)
    (huniq : ∀ s ∈ store, s.id = req.id → s = req) :
    buildDecisionContextLocate store now req.id = .error .REQUEST_NOT_FOUND := by
  unfold buildDecisionContextLocate
  rw [if_neg (by omega)]
  have hnone : (getRecentSpending store now 30).find? (fun r => r.id == req.id) = none := by
    rw [List.find?_eq_none]
    intro s hs
    simp only [getRecentSpending, List.mem_filter, Bool.and_eq_true, decide_eq_true_eq] at hs
    obtain ⟨hsmem, hwin, _⟩ := hs
    intro hbeq
    have hsid : s.id = req.id := by simpa using hbeq
    have : s = req := huniq s hsmem hsid
    rw [this] at hwin
    omega
  rw [hnone]

/-- Concrete store and clock used to witness the stale-request claim. -/
def staleRequest : SpendingRequest :=
  { sampleReqA with id := "old1", requestDate := 40, status := .Pending }

/-- Witness for C10: with now at day 100, a pending request dated day 40 is
in the store but the decision context lookup reports REQUEST_NOT_FOUND. -/
theorem buildDecisionContextLocate_old_request_witness :
    buildDecisionContextLocate [staleRequest] 100 "old1"
      = .error .REQUEST_NOT_FOUND := by
  have h := buildDecisionContextLocate_old_request [staleRequest] 100 staleRequest
    (by decide) (by decide) rfl (by decide) (by decide)
  exact h

/-- Financial health result: composite score with narrative factors and
concerns. -/
structure FinancialHealth where
  score : ℚ
  factors : List String
  concerns : List String
deriving DecidableEq, Repr

/-- Recommendation returned by generateRecommendation.  The source includes
the conditions and alternatives keys only when the collected lists are
nonempty, modelled here with Option. -/
structure Recommendation where
  shouldApprove : Bool
  confidence : ℚ
  reasoning : List String
  conditions : Option (List String)
  alternatives : Option (List String)
deriving DecidableEq, Repr

/-- generateRecommendation from DecisionContextService: start from approve
with confidence 80, then apply the budget-impact, urgency, financial-health,
goal-conflict, debt and category rules in source order, clamping confidence
to [0, 100] at the end.  The sequential variable mutations of the source are
modelled as shadowing lets; reasoning strings are abbreviated constants. -/
def generateRecommendation (request : SpendingRequest) (budget : BudgetStatus)
    (financialHealth : FinancialHealth) (conflictingGoals : List FinancialGoal)
    (highPriorityDebts : List DebtInfo) : Recommendation :=
  let reasoning : List String := []
  let conditions : List String := []
  let alternatives : List String := []
  let shouldApprove := true
  let confidence : ℚ := 80
  -- Budget impact analysis
  let (shouldApprove, confidence, reasoning, conditions, alternatives) :=
    if request.amount > budget.remainingBudget then
      (false, (90 : ℚ),
        reasoning ++ ["Request amount exceeds remaining budget"],
        conditions,
        alternatives ++ ["Consider deferring to next month or reducing amount"])
    else if request.amount > budget.remainingBudget * 0.5 then
      (shouldApprove, confidence - 15,
        reasoning ++ ["Request uses significant portion of remaining budget"],
        conditions ++ ["Monitor remaining budget carefully after approval"],
        alternatives)
    else (shouldApprove, confidence, reasoning, conditions, alternatives)
  -- Urgency consideration
  let (confidence, reasoning) :=
    if request.urgency = .Critical ∨ request.urgency = .High then
      if request.category = .Emergency then
        (confidence + 10, reasoning ++ ["High urgency emergency request has priority"])
      else
        (confidence, reasoning ++ ["High urgency - verify necessity"])
    else (confidence, reasoning)
  -- Financial health impact
  let (confidence, reasoning) :=
    if financialHealth.score < 50 then
      (confidence - 20, reasoning ++ ["Current financial health score is concerning"])
    else if financialHealth.score > 80 then
      (confidence + 10, reasoning ++ ["Strong financial health supports discretionary spending"])
    else (confidence, reasoning)
  -- Goal conflicts
  let (confidence, reasoning, conditions) :=
    if conflictingGoals.length > 0 then
      (confidence - 15,
        reasoning ++ ["Request may conflict with active financial goals"],
        conditions ++ ["Consider impact on financial goals before approval"])
    else (confidence, reasoning, conditions)
  -- High priority debts
  let (confidence, reasoning) :=
    if highPriorityDebts.length > 0
        ∧ ¬(request.category = .Emergency ∨ request.category = .Bills) then
      (confidence - 10, reasoning ++ ["High priority debts exist - prioritize debt payments"])
    else (confidence, reasoning)
  -- Category-specific logic
  let (confidence, reasoning, conditions) :=
    if request.category = .Entertainment ∧ request.amount > 200 then
      (confidence - 10,
        reasoning ++ ["Large entertainment expense requires justification"],
        conditions ++ ["Ensure this is a planned expense, not impulse purchase"])
    else (confidence, reasoning, conditions)
  { shouldApprove := shouldApprove,
    confidence := max 0 (min 100 confidence),
    reasoning := reasoning,
    conditions := if conditions.length > 0 then some conditions else none,
    alternatives := if alternatives.length > 0 then some alternatives else none }

/-- calculateFinancialHealthScore from DecisionContextService: start at 100,
subtract 15 for budget utilization in [75, 90) and 30 at or above 90,
subtract 20 for minimum payments above 30 percent of the monthly budget
(unless debt-free), subtract 10 when no goal is active, clamping to
[0, 100]. -/
def calculateFinancialHealthScore (budget : BudgetStatus) (goals : List FinancialGoal)
    (debts : List DebtInfo) : FinancialHealth :=
  let score : ℚ := 100
  -- Budget health
  let (score, factors, concerns) :=
    if budget.percentageUsed < 50 then
      (score, ["Budget well under control"], ([] : List String))
    else if budget.percentageUsed < 75 then
      (score, ["Budget tracking is healthy"], [])
    else if budget.percentageUsed < 90 then
      (score - 15, [], ["High budget utilization"])
    else
      (score - 30, [], ["Budget nearly exhausted"])
  -- Debt situation
  let totalDebt := (debts.map (fun debt => debt.remainingAmount)).sum
  let monthlyPayments := (debts.map (fun debt => debt.minimumPayment)).sum
  let (score, factors, concerns) :=
    if totalDebt = 0 then
      (score, factors ++ ["Debt-free financial position"], concerns)
    else if monthlyPayments > budget.monthlyBudget * 0.3 then
      (score - 20, factors, concerns ++ ["High debt-to-income ratio"])
    else (score, factors, concerns)
  -- Goals progress
  let activeGoalsCount := (goals.filter (fun g => decide (g.status = .active))).length
  let (score, factors, concerns) :=
    if activeGoalsCount > 0 then
      (score, factors ++ ["Actively working on financial goals"], concerns)
    else
      (score - 10, factors, concerns ++ ["No active financial goals set"])
  { score := max 0 (min 100 score), factors := factors, concerns := concerns }

/-- The derived financial context of buildSpendingContext, as consumed by
FinancialContextHelpers.assessFinancialHealth. -/
structure FinancialContext where
  recentSpending : List SpendingRequest
  monthlyTotal : ℚ
  weeklyTotal : ℚ
  averageRequestAmount : ℚ
  categoryBreakdown : SpendingCategory → ℚ
  urgentRequestsCount : ℕ

/-- Budget analysis record built by
FinancialContextHelpers.calculateBudgetAnalysis. -/
structure BudgetAnalysis where
  monthlyBudget : ℚ
  currentSpending : ℚ
  remainingBudget : ℚ
  percentageUsed : ℚ
  projectedMonthlySpending : ℚ
  onTrack : Bool
  daysLeftInMonth : ℚ
  dailyBudgetRemaining : ℚ
deriving DecidableEq, Repr

/-- FinancialContextHelpers.calculateBudgetAnalysis: totals approved spending
and derives remaining budget, utilization percentage, the linear monthly
projection and the on-track flag with its 5 percent tolerance. -/
def calculateBudgetAnalysis (monthlyBudget : ℚ) (currentSpending : List SpendingRequest)
    (daysIntoMonth daysInMonth : ℚ) : BudgetAnalysis :=
  let currentSpendingTotal :=
    ((currentSpending.filter (fun r => decide (r.status = .Approved))).map
      (fun r => r.amount)).sum
  let remainingBudget := monthlyBudget - currentSpendingTotal
  let percentageUsed := currentSpendingTotal / monthlyBudget * 100
  let daysLeftInMonth := daysInMonth - daysIntoMonth
  let projectedMonthlySpending := currentSpendingTotal / daysIntoMonth * daysInMonth
  let dailyBudgetRemaining :=
    if daysLeftInMonth > 0 then remainingBudget / daysLeftInMonth else 0
  { monthlyBudget := monthlyBudget,
    currentSpending := currentSpendingTotal,
    remainingBudget := remainingBudget,
    percentageUsed := percentageUsed,
    projectedMonthlySpending := projectedMonthlySpending,
    onTrack := decide (projectedMonthlySpending ≤ monthlyBudget * 1.05),
    daysLeftInMonth := daysLeftInMonth,
    dailyBudgetRemaining := dailyBudgetRemaining }

/-- The Math.max over the six category breakdown values in
assessFinancialHealth. -/
def maxOverCategories (f : SpendingCategory → ℚ) : ℚ :=
  max (f .Food) (max (f .Entertainment) (max (f .Shopping)
    (max (f .Bills) (max (f .Emergency) (f .Other)))))

/-- FinancialContextHelpers.assessFinancialHealth: start at 100; with a
budget analysis present, subtract 20 for utilization above 90 or 10 above 75,
and 15 more when the analysis is not on track; then subtract 15 for emergency
spending above 30 percent of the monthly total, 10 for more than five urgent
requests, and 10 for one category above 60 percent of the monthly total,
clamping to [0, 100]. -/
def assessFinancialHealth (context : FinancialContext)
    (budgetAnalysis : Option BudgetAnalysis) : FinancialHealth :=
  let score : ℚ := 100
  let (score, factors, concerns) :=
    match budgetAnalysis with
    | some ba =>
      let (score, factors, concerns) :=
        if ba.percentageUsed > 90 then
          (score - 20, ([] : List String), ["Monthly budget is nearly exhausted"])
        else if ba.percentageUsed > 75 then
          (score - 10, ["High budget utilization"], [])
        else
          (score, ["Budget utilization under control"], [])
      if ba.onTrack = false then
        (score - 15, factors, concerns ++ ["Projected spending exceeds monthly budget"])
      else (score, factors, concerns)
    | none => (score, [], [])
  let emergencySpending := context.categoryBreakdown .Emergency
  let (score, concerns) :=
    if emergencySpending > context.monthlyTotal * 0.3 then
      (score - 15, concerns ++ ["High emergency spending indicates financial stress"])
    else (score, concerns)
  let (score, factors, concerns) :=
    if context.urgentRequestsCount > 5 then
      (score - 10, factors, concerns ++ ["Frequent urgent requests may indicate poor planning"])
    else if context.urgentRequestsCount = 0 then
      (score, factors ++ ["No urgent requests indicates good financial planning"], concerns)
    else (score, factors, concerns)
  let maxCategorySpending := maxOverCategories context.categoryBreakdown
  let (score, factors, concerns) :=
    if maxCategorySpending > context.monthlyTotal * 0.6 then
      (score - 10, factors, concerns ++ ["Spending heavily concentrated in one category"])
    else
      (score, factors ++ ["Spending well distributed across categories"], concerns)
  { score := max 0 (min 100 score), factors := factors, concerns := concerns }

set_option maxHeartbeats 1000000 in
/-- C1: whenever the request amount strictly exceeds the remaining budget,
the recommendation denies the request (no later rule flips it back) and
carries at least one alternative suggestion. -/
theorem generateRecommendation_budget_breach (request : SpendingRequest)
    (budget : BudgetStatus) (financialHealth : FinancialHealth)
    (conflictingGoals : List FinancialGoal) (highPriorityDebts : List DebtInfo)
    (h : budget.remainingBudget < request.amount) :
    (generateRecommendation request budget financialHealth conflictingGoals
        highPriorityDebts).shouldApprove = false
    ∧ (generateRecommendation request budget financialHealth conflictingGoals
        highPriorityDebts).alternatives
        = some ["Consider deferring to next month or reducing amount"] := by
  unfold generateRecommendation
  split
  · repeat' split
    all_goals simp
  · next h' => exact absurd h h'

/-- Witness for C1 at the end-to-end scenario: a 200 entertainment request
with high urgency against 150 of remaining budget is denied with an
alternative present. -/
theorem generateRecommendation_budget_breach_witness :
    (generateRecommendation
        { sampleReqB with amount := 200, urgency := .High }
        { monthlyBudget := 3000, currentSpending := 2850, remainingBudget := 150,
          percentageUsed := 95, daysIntoMonth := 20, daysRemainingInMonth := 10,
          dailyAverageSpent := 142.5, projectedMonthlySpending := 4275,
          isOnTrack := false, budgetHealth := .critical, recommendations := [] }
        { score := 60, factors := [], concerns := [] } [] []).shouldApprove = false
    ∧ (generateRecommendation
        { sampleReqB with amount := 200, urgency := .High }
        { monthlyBudget := 3000, currentSpending := 2850, remainingBudget := 150,
          percentageUsed := 95, daysIntoMonth := 20, daysRemainingInMonth := 10,
          dailyAverageSpent := 142.5, projectedMonthlySpending := 4275,
          isOnTrack := false, budgetHealth := .critical, recommendations := [] }
        { score := 60, factors := [], concerns := [] } [] []).alternatives
        = some ["Consider deferring to next month or reducing amount"] :=
  generateRecommendation_budget_breach _ _ _ _ _ (by norm_num)

/-- Quiet request used to exhibit an empty reasoning list: small amount,
category Food, low urgency. -/
def quietRequest : SpendingRequest :=
  { id := "q1", title := "Snack", amount := 10, description := none,
    category := .Food, status := .Pending, requestDate := 0,
    decisionDate := none, reasoning := none, urgency := .Low, tags := [] }

/-- Roomy budget used to exhibit an empty reasoning list. -/
def roomyBudget : BudgetStatus :=
  { monthlyBudget := 3000, currentSpending := 2000, remainingBudget := 1000,
    percentageUsed := 200 / 3, daysIntoMonth := 15, daysRemainingInMonth := 15,
    dailyAverageSpent := 400 / 3, projectedMonthlySpending := 4000,
    isOnTrack := false, budgetHealth := .good, recommendations := [] }

/-- Mid-range financial health used to exhibit an empty reasoning list. -/
def midHealth : FinancialHealth :=
  { score := 60, factors := [], concerns := [] }

/-- Reasoning contribution of the budget impact stage of
generateRecommendation. -/
def budgetReasoningPart (request : SpendingRequest) (budget : BudgetStatus) : List String :=
  if request.amount > budget.remainingBudget then
    ["Request amount exceeds remaining budget"]
  else if request.amount > budget.remainingBudget * 0.5 then
    ["Request uses significant portion of remaining budget"]
  else []

/-- Reasoning contribution of the urgency stage of generateRecommendation. -/
def urgencyReasoningPart (request : SpendingRequest) : List String :=
  if request.urgency = .Critical ∨ request.urgency = .High then
    if request.category = .Emergency then ["High urgency emergency request has priority"]
    else ["High urgency - verify necessity"]
  else []

/-- Reasoning contribution of the financial health stage of
generateRecommendation. -/
def healthReasoningPart (financialHealth : FinancialHealth) : List String :=
  if financialHealth.score < 50 then ["Current financial health score is concerning"]
  else if financialHealth.score > 80 then
    ["Strong financial health supports discretionary spending"]
  else []

/-- Reasoning contribution of the goal conflict stage of
generateRecommendation. -/
def goalsReasoningPart (conflictingGoals : List FinancialGoal) : List String :=
  if conflictingGoals.length > 0 then ["Request may conflict with active financial goals"]
  else []

/-- Reasoning contribution of the debt stage of generateRecommendation. -/
def debtsReasoningPart (request : SpendingRequest) (highPriorityDebts : List DebtInfo) :
    List String :=
  if highPriorityDebts.length > 0
      ∧ ¬(request.category = .Emergency ∨ request.category = .Bills) then
    ["High priority debts exist - prioritize debt payments"]
  else []

/-- Reasoning contribution of the category stage of generateRecommendation. -/
def categoryReasoningPart (request : SpendingRequest) : List String :=
  if request.category = .Entertainment ∧ request.amount > 200 then
    ["Large entertainment expense requires justification"]
  else []

set_option maxHeartbeats 8000000 in
/-- The reasoning list of generateRecommendation is the concatenation of the
six per-stage contributions, in source order. -/
theorem generateRecommendation_reasoning_eq (request : SpendingRequest)
    (budget : BudgetStatus) (financialHealth : FinancialHealth)
    (conflictingGoals : List FinancialGoal) (highPriorityDebts : List DebtInfo) :
    (generateRecommendation request budget financialHealth conflictingGoals
        highPriorityDebts).reasoning
      = budgetReasoningPart request budget
        ++ urgencyReasoningPart request
        ++ healthReasoningPart financialHealth
        ++ goalsReasoningPart conflictingGoals
        ++ debtsReasoningPart request highPriorityDebts
        ++ categoryReasoningPart request := by
  unfold generateRecommendation
  repeat' split
  all_goals simp [budgetReasoningPart, urgencyReasoningPart, healthReasoningPart,
    goalsReasoningPart, debtsReasoningPart, categoryReasoningPart, *]
  all_goals simp_all

/-- Counterexample to C3: a request within contracted value ranges (positive
amount, valid enums, health score in [0, 100]) for which generateRecommendation
returns an empty reasoning list. -/
theorem generateRecommendation_reasoning_empty :
    (generateRecommendation quietRequest roomyBudget midHealth [] []).reasoning = [] := by
  rw [generateRecommendation_reasoning_eq]
  norm_num [budgetReasoningPart, urgencyReasoningPart, healthReasoningPart,
    goalsReasoningPart, debtsReasoningPart, categoryReasoningPart,
    quietRequest, roomyBudget, midHealth]
  decide

set_option maxHeartbeats 1000000 in
/-- C3 amended: the reasoning list is nonempty exactly when at least one
adjustment rule fires: the amount exceeds half the remaining budget, the
urgency is High or Critical, the health score is below 50 or above 80, a
conflicting goal exists, a high priority debt exists for a category outside
Emergency and Bills, or the request is a large entertainment expense.  For a
request firing no rule the reasoning list is empty. -/
theorem generateRecommendation_reasoning_iff (request : SpendingRequest)
    (budget : BudgetStatus) (financialHealth : FinancialHealth)
    (conflictingGoals : List FinancialGoal) (highPriorityDebts : List DebtInfo)
    (hamt : 0 < request.amount) :
    (generateRecommendation request budget financialHealth conflictingGoals
        highPriorityDebts).reasoning ≠ []
      ↔ (budget.remainingBudget * 0.5 < request.amount
        ∨ (request.urgency = .Critical ∨ request.urgency = .High)
        ∨ financialHealth.score < 50 ∨ 80 < financialHealth.score
        ∨ conflictingGoals ≠ []
        ∨ (highPriorityDebts ≠ []
            ∧ ¬(request.category = .Emergency ∨ request.category = .Bills))
        ∨ (request.category = .Entertainment ∧ 200 < request.amount)) := by
  rw [generateRecommendation_reasoning_eq]
  by_cases hb1 : request.amount > budget.remainingBudget <;>
    by_cases hb2 : request.amount > budget.remainingBudget * 0.5 <;>
    by_cases hu : request.urgency = .Critical ∨ request.urgency = .High <;>
    by_cases hc : request.category = .Emergency <;>
    by_cases hh1 : financialHealth.score < 50 <;>
    by_cases hh2 : financialHealth.score > 80 <;>
    simp [budgetReasoningPart, urgencyReasoningPart, healthReasoningPart,
      goalsReasoningPart, debtsReasoningPart, categoryReasoningPart,
      hb1, hb2, hu, hc, hh1, hh2, List.length_pos] <;>
    first
      | tauto
      | (intro; linarith)
      | (constructor <;> intro <;> first | linarith | tauto)

/-- Witness for the amended C3 at concrete inputs: the quiet request fires no
rule, so the equivalence instantiates to an empty reasoning list. -/
theorem generateRecommendation_reasoning_iff_witness :
    ((generateRecommendation quietRequest roomyBudget midHealth [] []).reasoning ≠ []
      ↔ (roomyBudget.remainingBudget * 0.5 < quietRequest.amount
        ∨ (quietRequest.urgency = .Critical ∨ quietRequest.urgency = .High)
        ∨ midHealth.score < 50 ∨ 80 < midHealth.score
        ∨ ([] : List FinancialGoal) ≠ []
        ∨ (([] : List DebtInfo) ≠ []
            ∧ ¬(quietRequest.category = .Emergency ∨ quietRequest.category = .Bills))
        ∨ (quietRequest.category = .Entertainment ∧ 200 < quietRequest.amount))) :=
  generateRecommendation_reasoning_iff quietRequest roomyBudget midHealth [] []
    (by norm_num [quietRequest])

/-- Budget at 80 percent utilization used by the health score
counterexample. -/
def tier80Budget : BudgetStatus :=
  { roomyBudget with percentageUsed := 80 }

/-- An active goal used by the health score counterexample. -/
def activeGoalSample : FinancialGoal :=
  { id := "g1", title := "Emergency fund", targetAmount := 1000,
    currentAmount := 100, deadline := none, priority := .medium,
    category := .emergencyFund, status := .active }

/-- Counterexample to C2: at 80 percent budget utilization with no debts and
one active goal, calculateFinancialHealthScore returns 85, not the 90 that a
10 point tier penalty would give. -/
theorem calculateFinancialHealthScore_penalty_size :
    (calculateFinancialHealthScore tier80Budget [activeGoalSample] []).score = 85
    ∧ ((85 : ℚ) = 100 - 10 → False) := by
  constructor
  · have hfil : (List.filter (fun g => decide (g.status = GoalStatus.active))
        [activeGoalSample]).length = 1 := by decide
    norm_num [calculateFinancialHealthScore, tier80Budget, roomyBudget, hfil,
      min_def, max_def]
  · norm_num

/-- C2 amended: calculateFinancialHealthScore starts at 100 and applies a 15
point penalty for utilization in [75, 90) and a 30 point penalty at or above
90, with no projected overspend penalty at all; the helper
assessFinancialHealth starts at 100 and applies 10 points for utilization in
(75, 90] and 20 above 90, with a further 15 point penalty only when the
budget analysis is off track, which means projected spending above 1.05 times
the monthly budget, not merely above the budget. -/
theorem financialHealthScore_amended :
    (∀ (budget : BudgetStatus) (goals : List FinancialGoal) (debts : List DebtInfo),
      (debts.map (fun debt => debt.minimumPayment)).sum ≤ budget.monthlyBudget * 0.3 →
      (goals.filter (fun g => decide (g.status = .active))).length > 0 →
      (calculateFinancialHealthScore budget goals debts).score
        = 100 - (if budget.percentageUsed < 75 then 0
            else if budget.percentageUsed < 90 then 15 else 30))
    ∧ (∀ (context : FinancialContext) (ba : BudgetAnalysis),
        ¬(context.categoryBreakdown .Emergency > context.monthlyTotal * 0.3) →
        ¬(context.urgentRequestsCount > 5) →
        ¬(maxOverCategories context.categoryBreakdown > context.monthlyTotal * 0.6) →
        (assessFinancialHealth context (some ba)).score
          = 100 - (if ba.percentageUsed > 90 then 20
              else if ba.percentageUsed > 75 then 10 else 0)
            - (if ba.onTrack then 0 else 15))
    ∧ (∀ (monthlyBudget : ℚ) (sp : List SpendingRequest) (di dm : ℚ),
        (calculateBudgetAnalysis monthlyBudget sp di dm).onTrack = true
          ↔ (calculateBudgetAnalysis monthlyBudget sp di dm).projectedMonthlySpending
              ≤ monthlyBudget * 1.05) := by
  refine ⟨?_, ?_, ?_⟩
  · intro budget goals debts hp hg
    have hnp : ¬((debts.map (fun debt => debt.minimumPayment)).sum
        > budget.monthlyBudget * 0.3) := not_lt.mpr hp
    by_cases h1 : budget.percentageUsed < 50 <;>
      by_cases h2 : budget.percentageUsed < 75 <;>
      by_cases h3 : budget.percentageUsed < 90 <;>
      by_cases h4 : (debts.map (fun debt => debt.remainingAmount)).sum = 0 <;>
      simp [calculateFinancialHealthScore, h1, h2, h3, h4, hnp, hg]
    all_goals try norm_num [min_def, max_def]
    all_goals linarith
  · intro context ba hE hU hM
    by_cases hp1 : ba.percentageUsed > 90 <;>
      by_cases hp2 : ba.percentageUsed > 75 <;>
      by_cases ht : ba.onTrack = false <;>
      by_cases hz : context.urgentRequestsCount = 0 <;>
      simp [assessFinancialHealth, hp1, hp2, ht, hz, hE, hU, hM]
    all_goals try norm_num [min_def, max_def]
    all_goals linarith
  · intro monthlyBudget sp di dm
    simp [calculateBudgetAnalysis]

/-- Flat financial context with no spending, used by the amended C2
witness. -/
def flatContext : FinancialContext :=
  { recentSpending := [], monthlyTotal := 0, weeklyTotal := 0,
    averageRequestAmount := 0, categoryBreakdown := fun _ => 0,
    urgentRequestsCount := 0 }

/-- Off-track budget analysis at 80 percent utilization, used by the amended
C2 witness. -/
def offTrackAnalysis : BudgetAnalysis :=
  { monthlyBudget := 100, currentSpending := 80, remainingBudget := 20,
    percentageUsed := 80, projectedMonthlySpending := 160, onTrack := false,
    daysLeftInMonth := 10, dailyBudgetRemaining := 2 }

/-- Witness for the amended C2 at concrete inputs for all three parts. -/
theorem financialHealthScore_amended_witness :
    (calculateFinancialHealthScore tier80Budget [activeGoalSample] []).score
        = 100 - (if tier80Budget.percentageUsed < 75 then 0
            else if tier80Budget.percentageUsed < 90 then 15 else 30)
    ∧ (assessFinancialHealth flatContext (some offTrackAnalysis)).score
        = 100 - (if offTrackAnalysis.percentageUsed > 90 then 20
            else if offTrackAnalysis.percentageUsed > 75 then 10 else 0)
          - (if offTrackAnalysis.onTrack then 0 else 15)
    ∧ ((calculateBudgetAnalysis 100 [] 1 30).onTrack = true
        ↔ (calculateBudgetAnalysis 100 [] 1 30).projectedMonthlySpending
            ≤ 100 * 1.05) :=
  ⟨financialHealthScore_amended.1 tier80Budget [activeGoalSample] []
      (by norm_num [tier80Budget, roomyBudget]) (by decide),
    financialHealthScore_amended.2.1 flatContext offTrackAnalysis
      (by norm_num [flatContext]) (by norm_num [flatContext])
      (by norm_num [flatContext, maxOverCategories]),
    financialHealthScore_amended.2.2 100 [] 1 30⟩

end NotionService
